import Mathlib

/-!
# StartupDeserializer (deps/v8/src/snapshot/startup-deserializer.cc)

A shallow embedding of `StartupDeserializer::DeserializeInto`,
`StartupDeserializer::FlushICacheForNewIsolate` and
`StartupDeserializer::PrintDisassembledCodeObjects`.

The three functions orchestrate calls into the heap, the allocator, the
read-only deserializer, the logger and the builtins table.  None of those
collaborators is defined in this translation unit, so each of them is a
parameter (`Env`): an arbitrary transformer of the isolate state.  What the
embedding fixes is what the source file fixes: which collaborator is called,
in which order, under which guard, with which arguments, and the few direct
reads and writes of isolate fields.  Every call is recorded in a trace of
`Event`s, in program order.
-/

namespace v8.internal

/-! ## Data model -/

/-- Machine address (`Address`, an unsigned pointer-sized integer; 64 bit). -/
abbrev Address := Fin (2 ^ 64)

/-- A tagged value held in a root slot: a small integer or a heap object
pointer.  The two are distinguished by their tag. -/
inductive Object where
  | Smi (value : Int)
  | HeapObject (address : Nat)
  deriving DecidableEq, Repr

/-- The placeholder `Smi::kZero`. -/
def Smi.kZero : Object := Object.Smi 0

/-- A page of the code space, with the bounds of its usable area. -/
structure Page where
  area_start : Address
  area_end : Address
  deriving DecidableEq, Repr

/-- Kinds of code objects (`Code::Kind`); only two are named by the source. -/
inductive Kind where
  | BUILTIN
  | BYTECODE_HANDLER
  | OTHER (tag : Nat)
  deriving DecidableEq, Repr

/-- A heap object as `HeapIterator` yields it: its address and, when
`IsCode()` holds, the kind of the code object. -/
structure HeapObject where
  address : Nat
  code : Option Kind
  deriving DecidableEq, Repr

/-- The two lists handed to `RestoreExternalReferenceRedirectors`. -/
inductive InfoList where
  | accessor_infos
  | call_handler_infos
  deriving DecidableEq, Repr

/-- The part of the isolate that the source file reads or writes directly,
together with everything else (`rest`) that only collaborators see. -/
structure State (σ : Type) where
  /-- Result of `thread_manager()->FirstThreadStateInUse()`; `none` is null. -/
  first_thread_state_in_use : Option Nat
  /-- Contents of `handle_scope_implementer()->blocks()`. -/
  handle_blocks : List Nat
  /-- Contents of `partial_snapshot_cache()`. -/
  partial_snapshot_cache : List Object
  /-- Value of `builtins()->is_initialized()`. -/
  builtins_is_initialized : Bool
  /-- Heap root `native_contexts_list`. -/
  native_contexts_list : Object
  /-- Heap root `allocation_sites_list`. -/
  allocation_sites_list : Object
  /-- Address of the oddball returned by `ReadOnlyRoots(isolate).undefined_value()`. -/
  undefined_oddball : Nat
  /-- Pages of `heap()->code_space()`, in iteration order. -/
  code_space : List Page
  /-- Objects yielded by a `HeapIterator`, in iteration order. -/
  heap_objects : List HeapObject
  /-- Everything else: snapshot cursor, object index, deferred records, ... -/
  rest : σ

/-- The value `ReadOnlyRoots(isolate).undefined_value()`: a heap object. -/
def State.undefined_value {σ : Type} (st : State σ) : Object :=
  Object.HeapObject st.undefined_oddball

/-- Build configuration and runtime flags read by the source file. -/
structure Config where
  /-- Whether `DCHECK`s are compiled in (debug build). -/
  DEBUG : Bool
  /-- Whether `ENABLE_DISASSEMBLER` is defined. -/
  ENABLE_DISASSEMBLER : Bool
  FLAG_rehash_snapshot : Bool
  FLAG_print_builtin_code : Bool
  deriving DecidableEq, Repr

/-- Members of the deserializer that are fixed before `DeserializeInto`
runs: `can_rehash()` (set through `SetRehashability` by the caller) and
`deserializing_user_code()`. -/
structure Deserializer where
  can_rehash : Bool
  deserializing_user_code : Bool
  deriving DecidableEq, Repr

/-- One call made by the source file, with the arguments that matter. -/
inductive Event where
  | Initialize
  | SetRehashability (v : Bool)
  | ReadOnlyDeserializeInto
  | ReserveSpace (granted : Bool)
  | FatalProcessOutOfMemory (location : String)
  | IterateSmiRoots
  | IterateStrongRoots
  | Iterate
  | IterateWeakRoots
  | DeserializeDeferredObjects
  | RestoreExternalReferenceRedirectors (list : InfoList)
  | FlushICacheForNewIsolate
  | FlushICache (start : Address) (size : Nat)
  | set_native_contexts_list (v : Object)
  | set_allocation_sites_list (v : Object)
  | LogCodeObjects
  | LogCompiledFunctions
  | MarkInitialized
  | PrintDisassembledCodeObjects
  | PrintBuiltinCode (obj : HeapObject)
  | InitializeHashSeed
  | RehashHeap
  | Rehash
  deriving DecidableEq, Repr

/-- The collaborators: every function the source file calls that is defined
elsewhere and is handed the isolate or belongs to it.  Each may change the
isolate in any way.  (`Assembler::FlushICache(start, size)` is a static call
that is given two numbers only; it is recorded in the trace and has no
effect on the isolate.) -/
structure Env (σ : Type) where
  Initialize : State σ → State σ
  SetRehashability : Bool → State σ → State σ
  ReadOnlyDeserializeInto : State σ → State σ
  /-- Member `allocator()->ReserveSpace()`: whether the reservation was granted. -/
  ReserveSpace : State σ → Bool × State σ
  IterateSmiRoots : State σ → State σ
  IterateStrongRoots : State σ → State σ
  Iterate : State σ → State σ
  IterateWeakRoots : State σ → State σ
  DeserializeDeferredObjects : State σ → State σ
  RestoreExternalReferenceRedirectors : InfoList → State σ → State σ
  /-- Effect of `LOG_CODE_EVENT(isolate, LogCodeObjects())`; whether the
  logger is listening is the collaborator's business. -/
  LogCodeObjects : State σ → State σ
  /-- Effect of `LOG_CODE_EVENT(isolate, LogCompiledFunctions())`. -/
  LogCompiledFunctions : State σ → State σ
  MarkInitialized : State σ → State σ
  PrintBuiltinCode : HeapObject → State σ → State σ
  InitializeHashSeed : State σ → State σ
  RehashHeap : State σ → State σ
  Rehash : State σ → State σ

/-- A run in progress: the isolate and the calls made so far, oldest first. -/
structure Run (σ : Type) where
  st : State σ
  trace : List Event

/-- The assertions of the source file. -/
inductive Check where
  | no_active_threads
  | no_active_handles
  | partial_snapshot_cache_empty
  | builtins_not_created
  | not_deserializing_user_code
  deriving DecidableEq, Repr

/-- Why a run ended without returning. -/
inductive Abort where
  | OutOfMemory (location : String)
  | DCheckFailed (check : Check)
  deriving DecidableEq, Repr

/-- A run that did not return: the cause and the state the process was
terminated in.  A result is `Except (Aborted σ) (Run σ)`: the run returned
(`ok`) or was terminated (`error`). -/
abbrev Aborted (σ : Type) := Abort × Run σ

/-- The run state a result ends in, whether it returned or not. -/
def final {σ : Type} : Except (Aborted σ) (Run σ) → Run σ
  | .ok r => r
  | .error e => e.2

/-! ## Operations -/

/-- Call a collaborator: record the call, apply its effect. -/
def call {σ : Type} (e : Event) (f : State σ → State σ) (r : Run σ) : Run σ :=
  { st := f r.st, trace := r.trace ++ [e] }

/-- Modelled from the spec: `V8::FatalProcessOutOfMemory` is not defined in
this file; following "the process must terminate with an out-of-memory
diagnostic", the call never returns and the run ends with the given
location tag. -/
def FatalProcessOutOfMemory {σ : Type} (location : String) (r : Run σ) :
    Except (Aborted σ) (Run σ) :=
  .error (Abort.OutOfMemory location,
    { st := r.st, trace := r.trace ++ [Event.FatalProcessOutOfMemory location] })

/-- Modelled from the spec: the `DCHECK` family is not defined in this
file; following "fatal-abort on any precondition violation", a check that is
compiled in (`DEBUG`) and whose condition is false ends the run; otherwise
it has no effect. -/
def DCHECK {σ : Type} (cfg : Config) (c : Check) (cond : Bool) (r : Run σ) :
    Except (Aborted σ) (Run σ) :=
  if cfg.DEBUG && !cond then .error (Abort.DCheckFailed c, r) else .ok r

/-- Length passed to `FlushICache`: `p->area_end() - p->area_start()`,
unsigned pointer-width subtraction. -/
def Page.area_size (p : Page) : Nat :=
  (p.area_end.val + 2 ^ 64 - p.area_start.val) % 2 ^ 64

/-- `StartupDeserializer::FlushICacheForNewIsolate` (lines 80-86). -/
def FlushICacheForNewIsolate {σ : Type} (cfg : Config) (d : Deserializer)
    (r : Run σ) : Except (Aborted σ) (Run σ) := do
  -- DCHECK(!deserializing_user_code());
  let r ← DCHECK cfg Check.not_deserializing_user_code (!d.deserializing_user_code) r
  -- for (Page* p : *isolate()->heap()->code_space())
  --   Assembler::FlushICache(p->area_start(), p->area_end() - p->area_start());
  pure (r.st.code_space.foldl
    (fun acc p => call (Event.FlushICache p.area_start p.area_size) id acc) r)

/-- `StartupDeserializer::PrintDisassembledCodeObjects` (lines 88-112).  The
tracing scope and output stream only select where the text goes. -/
def PrintDisassembledCodeObjects {σ : Type} (cfg : Config) (env : Env σ) (r : Run σ) : Run σ :=
  -- #ifdef ENABLE_DISASSEMBLER / if (FLAG_print_builtin_code)
  if cfg.ENABLE_DISASSEMBLER && cfg.FLAG_print_builtin_code then
    -- for (HeapObject* obj = iterator.next(); obj != nullptr; obj = iterator.next())
    r.st.heap_objects.foldl
      (fun acc obj =>
        match obj.code with
        | some kind =>
          if kind != Kind.BUILTIN && kind != Kind.BYTECODE_HANDLER then
            call (Event.PrintBuiltinCode obj) (env.PrintBuiltinCode obj) acc
          else acc
        | none => acc) r
  else r

/-- Lines 19-27 of `DeserializeInto`: initialisation, the read-only
deserializer, and the space reservation with its fatal failure path. -/
def DeserializeInto.reserve {σ : Type} (env : Env σ) (d : Deserializer) (st0 : State σ) :
    Except (Aborted σ) (Run σ) :=
  -- Initialize(isolate);
  let r := call Event.Initialize env.Initialize { st := st0, trace := [] }
  -- ReadOnlyDeserializer read_only_deserializer(read_only_data_);  (a local object)
  -- read_only_deserializer.SetRehashability(can_rehash());
  let r := call (Event.SetRehashability d.can_rehash) (env.SetRehashability d.can_rehash) r
  -- read_only_deserializer.DeserializeInto(isolate);
  let r := call Event.ReadOnlyDeserializeInto env.ReadOnlyDeserializeInto r
  -- if (!allocator()->ReserveSpace()) V8::FatalProcessOutOfMemory(...)
  let res := env.ReserveSpace r.st
  let r : Run σ := { st := res.2, trace := r.trace ++ [Event.ReserveSpace res.1] }
  if !res.1 then FatalProcessOutOfMemory "StartupDeserializer" r else .ok r

/-- Lines 29-36 of `DeserializeInto`: the four bring-up assertions. -/
def DeserializeInto.asserts {σ : Type} (cfg : Config) (r : Run σ) :
    Except (Aborted σ) (Run σ) := do
  -- DCHECK_NULL(isolate->thread_manager()->FirstThreadStateInUse());
  let r ← DCHECK cfg Check.no_active_threads r.st.first_thread_state_in_use.isNone r
  -- DCHECK(isolate->handle_scope_implementer()->blocks()->empty());
  let r ← DCHECK cfg Check.no_active_handles r.st.handle_blocks.isEmpty r
  -- DCHECK(isolate->partial_snapshot_cache()->empty());
  let r ← DCHECK cfg Check.partial_snapshot_cache_empty r.st.partial_snapshot_cache.isEmpty r
  -- DCHECK(!isolate->builtins()->is_initialized());
  DCHECK cfg Check.builtins_not_created (!r.st.builtins_is_initialized) r

/-- Lines 38-51 of `DeserializeInto`: the block under `DisallowHeapAllocation`. -/
def DeserializeInto.roots {σ : Type} (cfg : Config) (env : Env σ) (d : Deserializer)
    (r : Run σ) : Except (Aborted σ) (Run σ) :=
  -- isolate->heap()->IterateSmiRoots(this);
  let r := call Event.IterateSmiRoots env.IterateSmiRoots r
  -- isolate->heap()->IterateStrongRoots(this, VISIT_FOR_SERIALIZATION);
  let r := call Event.IterateStrongRoots env.IterateStrongRoots r
  -- Iterate(isolate, this);
  let r := call Event.Iterate env.Iterate r
  -- isolate->heap()->IterateWeakRoots(this, VISIT_FOR_SERIALIZATION);
  let r := call Event.IterateWeakRoots env.IterateWeakRoots r
  -- DeserializeDeferredObjects();
  let r := call Event.DeserializeDeferredObjects env.DeserializeDeferredObjects r
  -- RestoreExternalReferenceRedirectors(accessor_infos());
  let r := call (Event.RestoreExternalReferenceRedirectors InfoList.accessor_infos)
    (env.RestoreExternalReferenceRedirectors InfoList.accessor_infos) r
  -- RestoreExternalReferenceRedirectors(call_handler_infos());
  let r := call (Event.RestoreExternalReferenceRedirectors InfoList.call_handler_infos)
    (env.RestoreExternalReferenceRedirectors InfoList.call_handler_infos) r
  -- FlushICacheForNewIsolate();
  FlushICacheForNewIsolate cfg d (call Event.FlushICacheForNewIsolate id r)

/-- Lines 53-60 of `DeserializeInto`: defaulting of the two list roots. -/
def DeserializeInto.defaults {σ : Type} (r : Run σ) : Run σ :=
  -- isolate->heap()->set_native_contexts_list(ReadOnlyRoots(isolate).undefined_value());
  let r := call (Event.set_native_contexts_list r.st.undefined_value)
    (fun st => { st with native_contexts_list := st.undefined_value }) r
  -- if (isolate->heap()->allocation_sites_list() == Smi::kZero)
  if r.st.allocation_sites_list = Smi.kZero then
    call (Event.set_allocation_sites_list r.st.undefined_value)
      (fun st => { st with allocation_sites_list := st.undefined_value }) r
  else r

/-- Lines 62-77 of `DeserializeInto`: code events, builtins marked
initialized, optional disassembly, optional rehash. -/
def DeserializeInto.finish {σ : Type} (cfg : Config) (env : Env σ) (d : Deserializer)
    (r : Run σ) : Run σ :=
  -- LOG_CODE_EVENT(isolate, LogCodeObjects());
  let r := call Event.LogCodeObjects env.LogCodeObjects r
  -- LOG_CODE_EVENT(isolate, LogCompiledFunctions());
  let r := call Event.LogCompiledFunctions env.LogCompiledFunctions r
  -- isolate->builtins()->MarkInitialized();
  let r := call Event.MarkInitialized env.MarkInitialized r
  -- PrintDisassembledCodeObjects();
  let r := PrintDisassembledCodeObjects cfg env (call Event.PrintDisassembledCodeObjects id r)
  -- if (FLAG_rehash_snapshot && can_rehash())
  if cfg.FLAG_rehash_snapshot && d.can_rehash then
    -- isolate->heap()->InitializeHashSeed();
    let r := call Event.InitializeHashSeed env.InitializeHashSeed r
    -- read_only_deserializer.RehashHeap();
    let r := call Event.RehashHeap env.RehashHeap r
    -- Rehash();
    call Event.Rehash env.Rehash r
  else r

/-- `StartupDeserializer::DeserializeInto` (lines 18-78). -/
def DeserializeInto {σ : Type} (cfg : Config) (env : Env σ) (d : Deserializer)
    (st0 : State σ) : Except (Aborted σ) (Run σ) := do
  let r ← DeserializeInto.reserve env d st0
  let r ← DeserializeInto.asserts cfg r
  let r ← DeserializeInto.roots cfg env d r
  let r := DeserializeInto.defaults r
  pure (DeserializeInto.finish cfg env d r)

/-! ## Observations on traces and states -/

/-- Every event satisfying `p` occurs strictly before every event satisfying
`q`: once a `q` event has been seen, no `p` event follows (nor is it one). -/
def allBefore (p q : Event → Bool) : List Event → Bool
  | [] => true
  | e :: es => (!(q e) || (!(p e) && es.all (fun x => !(p x)))) && allBefore p q es

/-- The four root-visiting steps of the block. -/
def Event.isRootVisit : Event → Bool
  | .IterateSmiRoots | .IterateStrongRoots | .Iterate | .IterateWeakRoots => true
  | _ => false

/-- A call of `Assembler::FlushICache`. -/
def Event.isFlushICache : Event → Bool
  | .FlushICache _ _ => true
  | _ => false

/-- A call of `FlushICacheForNewIsolate` or one of the `FlushICache` calls it makes. -/
def Event.isFlushStep (e : Event) : Bool :=
  e == Event.FlushICacheForNewIsolate || e.isFlushICache

/-- A call of `RestoreExternalReferenceRedirectors`. -/
def Event.isRestoreRedirectors : Event → Bool
  | .RestoreExternalReferenceRedirectors _ => true
  | _ => false

/-- The code deserialization steps of the block: root visits, deferred
objects, redirector restoration. -/
def Event.isCodeDeserializationStep (e : Event) : Bool :=
  e.isRootVisit || e == Event.DeserializeDeferredObjects || e.isRestoreRedirectors

/-- A call of `PrintBuiltinCode`, the output of the disassembly path. -/
def Event.isPrintBuiltinCode : Event → Bool
  | .PrintBuiltinCode _ => true
  | _ => false

/-- The diagnostic disassembly path: the call of `PrintDisassembledCodeObjects`
and the `PrintBuiltinCode` calls it makes. -/
def Event.isDisassemblyStep (e : Event) : Bool :=
  e == Event.PrintDisassembledCodeObjects || e.isPrintBuiltinCode

/-- The three steps of the rehash phase. -/
def Event.isRehashStep : Event → Bool
  | .InitializeHashSeed | .RehashHeap | .Rehash => true
  | _ => false

/-- A write of one of the two list roots. -/
def Event.isRootListWrite : Event → Bool
  | .set_native_contexts_list _ | .set_allocation_sites_list _ => true
  | _ => false

/-- A call of `allocator()->ReserveSpace()`, granted or not. -/
def Event.isReserveSpace : Event → Bool
  | .ReserveSpace _ => true
  | _ => false

/-- The deserialization steps C5 names: the read-only deserializer's
`DeserializeInto`, the root iterations, the deferred objects. -/
def Event.isDeserializationStep (e : Event) : Bool :=
  e == Event.ReadOnlyDeserializeInto || e.isRootVisit || e == Event.DeserializeDeferredObjects

/-- Events of lines 38-77: everything `DeserializeInto` does after the
reservation and the assertions. -/
def Event.isAfterReservation : Event → Bool
  | .Initialize | .SetRehashability _ | .ReadOnlyDeserializeInto | .ReserveSpace _
  | .FatalProcessOutOfMemory _ => false
  | _ => true

/-- Whether `PrintDisassembledCodeObjects` prints the object: a code object
that is neither a builtin nor a bytecode handler. -/
def HeapObject.printed (obj : HeapObject) : Bool :=
  match obj.code with
  | some kind => kind != Kind.BUILTIN && kind != Kind.BYTECODE_HANDLER
  | none => false

/-- The `FlushICache` call the loop of `FlushICacheForNewIsolate` makes for a page. -/
def Page.flush (p : Page) : Event := Event.FlushICache p.area_start p.area_size

/-- The four bring-up conditions, read off the isolate. -/
def State.bringUpOk {σ : Type} (st : State σ) : Bool :=
  st.first_thread_state_in_use.isNone && st.handle_blocks.isEmpty
    && st.partial_snapshot_cache.isEmpty && !st.builtins_is_initialized

/-- The state in which `allocator()->ReserveSpace()` is called. -/
def stateBeforeReserve {σ : Type} (env : Env σ) (d : Deserializer) (st0 : State σ) : State σ :=
  env.ReadOnlyDeserializeInto (env.SetRehashability d.can_rehash (env.Initialize st0))

/-- The state in which the four bring-up assertions are evaluated. -/
def stateAtAssertions {σ : Type} (env : Env σ) (d : Deserializer) (st0 : State σ) : State σ :=
  (env.ReserveSpace (stateBeforeReserve env d st0)).2

/-- The run at the entry of `FlushICacheForNewIsolate` in the block. -/
def beforeFlush {σ : Type} (env : Env σ) (r : Run σ) : Run σ :=
  call Event.FlushICacheForNewIsolate id
    (call (Event.RestoreExternalReferenceRedirectors InfoList.call_handler_infos)
      (env.RestoreExternalReferenceRedirectors InfoList.call_handler_infos)
    (call (Event.RestoreExternalReferenceRedirectors InfoList.accessor_infos)
      (env.RestoreExternalReferenceRedirectors InfoList.accessor_infos)
    (call Event.DeserializeDeferredObjects env.DeserializeDeferredObjects
    (call Event.IterateWeakRoots env.IterateWeakRoots
    (call Event.Iterate env.Iterate
    (call Event.IterateStrongRoots env.IterateStrongRoots
    (call Event.IterateSmiRoots env.IterateSmiRoots r)))))))

/-- The run after the flush loop over the code space of `r`. -/
def flushed {σ : Type} (r : Run σ) : Run σ :=
  r.st.code_space.foldl (fun acc p => call (Event.FlushICache p.area_start p.area_size) id acc) r

/-- The objects `PrintDisassembledCodeObjects` prints when entered in state `st`. -/
def printedObjects {σ : Type} (cfg : Config) (st : State σ) : List HeapObject :=
  if cfg.ENABLE_DISASSEMBLER && cfg.FLAG_print_builtin_code then
    st.heap_objects.filter HeapObject.printed
  else []

/-- A collaborator that leaves the allocation-site root as it finds it. -/
def keepsAllocationSites {σ : Type} (f : State σ → State σ) : Prop :=
  ∀ st, (f st).allocation_sites_list = st.allocation_sites_list

/-- The collaborators called after the list roots are defaulted (logging,
marking the builtins, printing, rehashing) do not write the allocation-site
root. -/
def Env.finishKeepsAllocationSites {σ : Type} (env : Env σ) : Prop :=
  keepsAllocationSites env.LogCodeObjects ∧ keepsAllocationSites env.LogCompiledFunctions
    ∧ keepsAllocationSites env.MarkInitialized
    ∧ (∀ obj, keepsAllocationSites (env.PrintBuiltinCode obj))
    ∧ keepsAllocationSites env.InitializeHashSeed ∧ keepsAllocationSites env.RehashHeap
    ∧ keepsAllocationSites env.Rehash

/-! ## Shapes of traces -/

/-- Events of lines 19-25 when the reservation is granted (`true`) or not. -/
def reserveTrace (c granted : Bool) : List Event :=
  [Event.Initialize, Event.SetRehashability c, Event.ReadOnlyDeserializeInto,
    Event.ReserveSpace granted]

/-- Events of the block of lines 38-50, up to the entry of the flush. -/
def blockTrace : List Event :=
  [Event.IterateSmiRoots, Event.IterateStrongRoots, Event.Iterate, Event.IterateWeakRoots,
    Event.DeserializeDeferredObjects,
    Event.RestoreExternalReferenceRedirectors InfoList.accessor_infos,
    Event.RestoreExternalReferenceRedirectors InfoList.call_handler_infos,
    Event.FlushICacheForNewIsolate]

/-- Events of lines 53-60: `sites` tells whether the allocation-site root is written. -/
def defaultsTrace (u : Object) (sites : Bool) : List Event :=
  Event.set_native_contexts_list u :: (if sites then [Event.set_allocation_sites_list u] else [])

/-- Events of the rehash phase (lines 73-77). -/
def rehashTrace (rehash : Bool) : List Event :=
  if rehash then [Event.InitializeHashSeed, Event.RehashHeap, Event.Rehash] else []

/-- Events of lines 62-77. -/
def finishTrace (prints : List HeapObject) (rehash : Bool) : List Event :=
  [Event.LogCodeObjects, Event.LogCompiledFunctions, Event.MarkInitialized,
    Event.PrintDisassembledCodeObjects] ++ prints.map Event.PrintBuiltinCode ++ rehashTrace rehash

/-- Events of a run that returns. -/
def returnedTrace (c : Bool) (pages : List Page) (u : Object) (sites : Bool)
    (prints : List HeapObject) (rehash : Bool) : List Event :=
  reserveTrace c true ++ blockTrace ++ pages.map Page.flush ++ defaultsTrace u sites
    ++ finishTrace prints rehash

/-! ## Two statements of the specification, as written -/

/-- The claim C4 as the specification states it: the deferred objects are
deserialized before the Smi, strong and weak roots are visited. -/
def deferredBeforeRoots (tr : List Event) : Bool :=
  allBefore (· == Event.DeserializeDeferredObjects)
    (fun e => e == Event.IterateSmiRoots || e == Event.IterateStrongRoots
      || e == Event.IterateWeakRoots) tr

/-- The claim C5 as the specification states it: every deserialization step
of the run comes after a granted `ReserveSpace`. -/
def reservedBeforeDecoding (tr : List Event) : Bool :=
  allBefore (· == Event.ReserveSpace true) Event.isDeserializationStep tr
    && (!(tr.any Event.isDeserializationStep) || tr.contains (Event.ReserveSpace true))

/-! ## Sample inputs -/

/-- Collaborators that leave the isolate alone; the reservation is granted
or refused as told. -/
def sampleEnv (granted : Bool) : Env Unit where
  Initialize := id
  SetRehashability := fun _ => id
  ReadOnlyDeserializeInto := id
  ReserveSpace := fun st => (granted, st)
  IterateSmiRoots := id
  IterateStrongRoots := id
  Iterate := id
  IterateWeakRoots := id
  DeserializeDeferredObjects := id
  RestoreExternalReferenceRedirectors := fun _ => id
  LogCodeObjects := id
  LogCompiledFunctions := id
  MarkInitialized := fun st => { st with builtins_is_initialized := true }
  PrintBuiltinCode := fun _ => id
  InitializeHashSeed := id
  RehashHeap := id
  Rehash := id

/-- Collaborators as in `sampleEnv true`, except that visiting the strong
roots records an allocation site. -/
def sitesEnv : Env Unit :=
  { sampleEnv true with
    IterateStrongRoots := fun st => { st with allocation_sites_list := Object.HeapObject 4100 } }

/-- Collaborators as in `sampleEnv true`, except that marking the builtins
initialized also resets the allocation-site root to the placeholder. -/
def resettingEnv : Env Unit :=
  { sampleEnv true with
    MarkInitialized := fun st =>
      { st with builtins_is_initialized := true, allocation_sites_list := Smi.kZero } }

/-- A fresh isolate: no thread, no handle block, empty caches, two code pages
and three heap objects. -/
def sampleState : State Unit where
  first_thread_state_in_use := none
  handle_blocks := []
  partial_snapshot_cache := []
  builtins_is_initialized := false
  native_contexts_list := Smi.kZero
  allocation_sites_list := Smi.kZero
  undefined_oddball := 8
  code_space := [{ area_start := 4096, area_end := 8192 },
    { area_start := 16384, area_end := 20480 }]
  heap_objects := [{ address := 4100, code := some (Kind.OTHER 2) },
    { address := 4200, code := some Kind.BUILTIN }, { address := 96, code := none }]
  rest := ()

/-- An isolate that still has an open handle-scope block. -/
def busyState : State Unit := { sampleState with handle_blocks := [1] }

/-- A debug build with disassembly and rehashing switched on. -/
def sampleConfig : Config :=
  { DEBUG := true, ENABLE_DISASSEMBLER := true, FLAG_rehash_snapshot := true,
    FLAG_print_builtin_code := true }

/-- A startup deserializer of a rehashable snapshot. -/
def sampleDeserializer : Deserializer :=
  { can_rehash := true, deserializing_user_code := false }

/-- The run the sample isolate returns with the reservation granted. -/
def sampleRun : Run Unit :=
  final (DeserializeInto sampleConfig (sampleEnv true) sampleDeserializer sampleState)

/-! ## Lemmas on the phases and their traces -/

/-- A call appends its event. -/
@[simp] theorem call_trace {σ : Type} (e : Event) (f : State σ → State σ) (r : Run σ) :
    (call e f r).trace = r.trace ++ [e] := rfl

/-- A call applies its effect. -/
@[simp] theorem call_st {σ : Type} (e : Event) (f : State σ → State σ) (r : Run σ) :
    (call e f r).st = f r.st := rfl

/-- The flush loop appends one `FlushICache` call per page, in page order. -/
theorem flush_loop_trace {σ : Type} (pages : List Page) (r : Run σ) :
    (pages.foldl (fun acc p => call (Event.FlushICache p.area_start p.area_size) id acc)
      r).trace
      = r.trace ++ pages.map Page.flush := by
  induction pages generalizing r with
  | nil => simp
  | cons p ps ih => simp [List.foldl_cons, ih, Page.flush]

/-- The disassembly loop appends one `PrintBuiltinCode` call per printed object. -/
theorem print_loop_trace {σ : Type} (env : Env σ) (objs : List HeapObject) (r : Run σ) :
    (objs.foldl (fun acc obj =>
        match obj.code with
        | some kind =>
          if kind != Kind.BUILTIN && kind != Kind.BYTECODE_HANDLER then
            call (Event.PrintBuiltinCode obj) (env.PrintBuiltinCode obj) acc
          else acc
        | none => acc) r).trace
      = r.trace ++ (objs.filter HeapObject.printed).map Event.PrintBuiltinCode := by
  induction objs generalizing r with
  | nil => simp
  | cons o os ih =>
    rw [List.foldl_cons, ih]
    cases hc : o.code with
    | none => simp [HeapObject.printed, hc]
    | some k =>
      by_cases hk : (k != Kind.BUILTIN && k != Kind.BYTECODE_HANDLER) = true
      · simp [HeapObject.printed, hc, hk]
      · simp [HeapObject.printed, hc, hk]

/-- Lines 19-27 as a case distinction on the result of `ReserveSpace`. -/
theorem reserve_eq {σ : Type} (env : Env σ) (d : Deserializer) (st0 : State σ) :
    DeserializeInto.reserve env d st0 =
      if (env.ReserveSpace (stateBeforeReserve env d st0)).1 then
        .ok { st := (env.ReserveSpace (stateBeforeReserve env d st0)).2,
              trace := reserveTrace d.can_rehash true }
      else
        .error (Abort.OutOfMemory "StartupDeserializer",
          { st := (env.ReserveSpace (stateBeforeReserve env d st0)).2,
            trace := reserveTrace d.can_rehash false
              ++ [Event.FatalProcessOutOfMemory "StartupDeserializer"] }) := by
  cases h : (env.ReserveSpace (stateBeforeReserve env d st0)).1 <;>
    simp [DeserializeInto.reserve, FatalProcessOutOfMemory, stateBeforeReserve, reserveTrace,
      call] at h ⊢ <;> simp [h]

/-- Lines 29-36: either one of the four assertions ends the run, in a debug
build and in a state violating the bring-up conditions, or the run goes on
unchanged. -/
theorem asserts_eq {σ : Type} (cfg : Config) (r : Run σ) :
    (∃ c, DeserializeInto.asserts cfg r = .error (Abort.DCheckFailed c, r)
        ∧ c ≠ Check.not_deserializing_user_code ∧ cfg.DEBUG = true ∧ r.st.bringUpOk = false)
    ∨ (DeserializeInto.asserts cfg r = .ok r ∧ (cfg.DEBUG = true → r.st.bringUpOk = true)) := by
  unfold State.bringUpOk
  by_cases h0 : cfg.DEBUG = true
  · by_cases h1 : r.st.first_thread_state_in_use.isNone = true <;>
      by_cases h2 : r.st.handle_blocks.isEmpty = true <;>
      by_cases h3 : r.st.partial_snapshot_cache.isEmpty = true <;>
      by_cases h4 : r.st.builtins_is_initialized = true <;>
      simp only [Bool.not_eq_true] at h1 h2 h3 h4 <;>
      simp [DeserializeInto.asserts, DCHECK, bind, Except.bind, h0, h1, h2, h3, h4]
  · simp [DeserializeInto.asserts, DCHECK, bind, Except.bind, h0]

/-- The function as a case distinction on its entry assertion. -/
theorem FlushICacheForNewIsolate_eq {σ : Type} (cfg : Config) (d : Deserializer)
    (r : Run σ) :
    FlushICacheForNewIsolate cfg d r =
      if cfg.DEBUG = true ∧ d.deserializing_user_code = true then
        .error (Abort.DCheckFailed Check.not_deserializing_user_code, r)
      else .ok (flushed r) := by
  cases h1 : cfg.DEBUG <;> cases h2 : d.deserializing_user_code <;>
    simp [FlushICacheForNewIsolate, DCHECK, bind, Except.bind, pure, Except.pure, h1, h2, flushed]

/-- The trace after the flush loop. -/
theorem flushed_trace {σ : Type} (r : Run σ) :
    (flushed r).trace = r.trace ++ r.st.code_space.map Page.flush :=
  flush_loop_trace r.st.code_space r

/-- The trace at the entry of the flush. -/
theorem beforeFlush_trace {σ : Type} (env : Env σ) (r : Run σ) :
    (beforeFlush env r).trace = r.trace ++ blockTrace := by
  simp [beforeFlush, blockTrace]

/-- Lines 38-51 as a case distinction on the entry assertion of the flush. -/
theorem roots_eq {σ : Type} (cfg : Config) (env : Env σ) (d : Deserializer) (r : Run σ) :
    DeserializeInto.roots cfg env d r =
      if cfg.DEBUG = true ∧ d.deserializing_user_code = true then
        .error (Abort.DCheckFailed Check.not_deserializing_user_code, beforeFlush env r)
      else .ok (flushed (beforeFlush env r)) := by
  simp only [DeserializeInto.roots, FlushICacheForNewIsolate_eq, beforeFlush]

/-- The trace of lines 53-60. -/
theorem defaults_trace {σ : Type} (r : Run σ) :
    (DeserializeInto.defaults r).trace =
      r.trace ++ defaultsTrace r.st.undefined_value (decide (r.st.allocation_sites_list = Smi.kZero)) := by
  by_cases h : r.st.allocation_sites_list = Smi.kZero <;>
    simp [DeserializeInto.defaults, defaultsTrace, h, State.undefined_value]

/-- The trace of `PrintDisassembledCodeObjects`. -/
theorem PrintDisassembledCodeObjects_trace {σ : Type} (cfg : Config) (env : Env σ) (r : Run σ) :
    (PrintDisassembledCodeObjects cfg env r).trace =
      r.trace ++ (printedObjects cfg r.st).map Event.PrintBuiltinCode := by
  unfold PrintDisassembledCodeObjects printedObjects
  split
  · exact print_loop_trace env r.st.heap_objects r
  · simp

/-- The trace of lines 62-77. -/
theorem finish_trace {σ : Type} (cfg : Config) (env : Env σ) (d : Deserializer) (r : Run σ) :
    ∃ prints, (DeserializeInto.finish cfg env d r).trace =
      r.trace ++ finishTrace prints (cfg.FLAG_rehash_snapshot && d.can_rehash) := by
  refine ⟨printedObjects cfg
    (env.MarkInitialized (env.LogCompiledFunctions (env.LogCodeObjects r.st))), ?_⟩
  cases hr : (cfg.FLAG_rehash_snapshot && d.can_rehash) <;>
    simp [DeserializeInto.finish, PrintDisassembledCodeObjects_trace, hr, finishTrace,
      rehashTrace]

/-- A run returns exactly when the reservation is granted and no compiled-in
assertion fails; the returned run is the composition of the phases. -/
theorem DeserializeInto_ok_iff {σ : Type} (cfg : Config) (env : Env σ) (d : Deserializer)
    (st0 : State σ) (r : Run σ) :
    DeserializeInto cfg env d st0 = .ok r ↔
      ∃ r1, DeserializeInto.reserve env d st0 = .ok r1
        ∧ DeserializeInto.asserts cfg r1 = .ok r1
        ∧ DeserializeInto.roots cfg env d r1 = .ok (flushed (beforeFlush env r1))
        ∧ r = DeserializeInto.finish cfg env d
            (DeserializeInto.defaults (flushed (beforeFlush env r1))) := by
  unfold DeserializeInto
  cases h1 : DeserializeInto.reserve env d st0 with
  | error e => simp [bind, Except.bind]
  | ok r1 =>
    rcases asserts_eq cfg r1 with ⟨c, h2, -⟩ | ⟨h2, -⟩
    · simp [bind, Except.bind, h2]
    · by_cases h3 : cfg.DEBUG = true ∧ d.deserializing_user_code = true
      · simp [bind, Except.bind, h2, roots_eq, h3]
      · simp only [bind, Except.bind, pure, Except.pure, h2, roots_eq, h3, if_false,
          Except.ok.injEq, exists_eq_left', true_and]
        exact eq_comm

/-- The trace of a run that returns. -/
theorem returned_trace {σ : Type} {cfg : Config} {env : Env σ} {d : Deserializer}
    {st0 : State σ} {r : Run σ} (h : DeserializeInto cfg env d st0 = .ok r) :
    ∃ pages u sites prints, r.trace =
      returnedTrace d.can_rehash pages u sites prints (cfg.FLAG_rehash_snapshot && d.can_rehash) := by
  obtain ⟨r1, h1, -, -, rfl⟩ := (DeserializeInto_ok_iff cfg env d st0 r).1 h
  rw [reserve_eq] at h1
  split at h1
  · injection h1 with h1
    obtain ⟨prints, hp⟩ := finish_trace cfg env d
      (DeserializeInto.defaults (flushed (beforeFlush env r1)))
    refine ⟨(beforeFlush env r1).st.code_space,
      (flushed (beforeFlush env r1)).st.undefined_value,
      decide ((flushed (beforeFlush env r1)).st.allocation_sites_list = Smi.kZero),
      prints, ?_⟩
    rw [hp, defaults_trace, flushed_trace, beforeFlush_trace, ← h1]
    simp [returnedTrace]
  · cases h1

/-- `allBefore` over a concatenation: both parts are in order, and if the
first part holds a `q` event the second holds no `p` event. -/
theorem allBefore_append (p q : Event → Bool) (xs ys : List Event) :
    allBefore p q (xs ++ ys) =
      (allBefore p q xs && allBefore p q ys && (!(xs.any q) || ys.all (fun x => !(p x)))) := by
  induction xs with
  | nil => simp [allBefore]
  | cons e es ih =>
    show ((!(q e) || (!(p e) && (es ++ ys).all (fun x => !(p x))))
      && allBefore p q (es ++ ys)) = _
    rw [ih, List.all_append]
    simp only [allBefore, List.any_cons]
    generalize allBefore p q es = a
    generalize allBefore p q ys = b
    generalize es.all (fun x => !(p x)) = c
    generalize ys.all (fun x => !(p x)) = c'
    generalize es.any q = f
    cases q e <;> cases p e <;> cases a <;> cases b <;> cases c <;> cases c' <;> cases f <;> rfl

/-- A list without `p` events is in order. -/
theorem allBefore_of_no_left (p q : Event → Bool) (xs : List Event)
    (h : xs.all (fun x => !(p x)) = true) : allBefore p q xs = true := by
  induction xs with
  | nil => rfl
  | cons e es ih =>
    simp only [List.all_cons, Bool.and_eq_true] at h
    simp [allBefore, h.1, h.2, ih h.2]

/-- A list without `q` events is in order. -/
theorem allBefore_of_no_right (p q : Event → Bool) (xs : List Event)
    (h : xs.all (fun x => !(q x)) = true) : allBefore p q xs = true := by
  induction xs with
  | nil => rfl
  | cons e es ih =>
    simp only [List.all_cons, Bool.and_eq_true] at h
    simp [allBefore, h.1, ih h.2]

/-- What `allBefore` computes: positions of `p` events are strictly smaller
than positions of `q` events. -/
theorem allBefore_iff (p q : Event → Bool) (tr : List Event) :
    allBefore p q tr = true ↔
      ∀ (i j : Nat) (a b : Event),
        tr[i]? = some a → tr[j]? = some b → p a = true → q b = true → i < j := by
  induction tr with
  | nil => simp [allBefore]
  | cons e es ih =>
    simp only [allBefore, Bool.and_eq_true, Bool.or_eq_true, Bool.not_eq_true', List.all_eq_true,
      ih]
    constructor
    · rintro ⟨h1, h2⟩ i j a b hi hj hp hq
      cases i with
      | zero =>
        cases j with
        | zero =>
          simp only [List.getElem?_cons_zero, Option.some.injEq] at hi hj
          subst hi; subst hj
          rcases h1 with h1 | h1
          · rw [h1] at hq; cases hq
          · rw [h1.1] at hp; cases hp
        | succ j => exact Nat.succ_pos j
      | succ i =>
        cases j with
        | zero =>
          simp only [List.getElem?_cons_zero, List.getElem?_cons_succ, Option.some.injEq] at hi hj
          subst hj
          rcases h1 with h1 | h1
          · rw [h1] at hq; cases hq
          · have := h1.2 a (List.getElem?_mem hi)
            rw [hp] at this; cases this
        | succ j =>
          simp only [List.getElem?_cons_succ] at hi hj
          exact Nat.succ_lt_succ (h2 i j a b hi hj hp hq)
    · intro h
      refine ⟨?_, ?_⟩
      · cases hq : q e with
        | false => exact Or.inl rfl
        | true =>
          refine Or.inr ⟨?_, ?_⟩
          · cases hp : p e with
            | false => rfl
            | true =>
              exact absurd (h 0 0 e e List.getElem?_cons_zero List.getElem?_cons_zero hp hq)
                (Nat.lt_irrefl 0)
          · intro x hx
            obtain ⟨i, hi⟩ := List.mem_iff_getElem?.1 hx
            cases hp : p x with
            | false => rfl
            | true =>
              exact absurd (h (i + 1) 0 x e (by simpa using hi) List.getElem?_cons_zero hp hq)
                (Nat.not_lt_zero _)
      · intro i j a b hi hj hp hq
        exact Nat.lt_of_succ_lt_succ
          (h (i + 1) (j + 1) a b (by simpa using hi) (by simpa using hj) hp hq)

/-- An event that is not a `FlushICache` call does not occur among the
flushes. -/
theorem count_map_flush (e : Event) (pages : List Page) (h : e.isFlushICache = false) :
    List.count e (pages.map Page.flush) = 0 := by
  rw [List.count_eq_zero]
  intro hm
  obtain ⟨p, -, rfl⟩ := List.mem_map.1 hm
  simp [Page.flush, Event.isFlushICache] at h

/-- An event that is not a `PrintBuiltinCode` call does not occur among the
prints. -/
theorem count_map_print (e : Event) (objs : List HeapObject) (h : e.isPrintBuiltinCode = false) :
    List.count e (objs.map Event.PrintBuiltinCode) = 0 := by
  rw [List.count_eq_zero]
  intro hm
  obtain ⟨p, -, rfl⟩ := List.mem_map.1 hm
  simp [Event.isPrintBuiltinCode] at h

/-- The flushes are in order for a `p` that no flush satisfies. -/
theorem allBefore_map_flush_left (p q : Event → Bool) (pages : List Page)
    (h : ∀ s n, p (Event.FlushICache s n) = false) :
    allBefore p q (pages.map Page.flush) = true :=
  allBefore_of_no_left p q _ (by simp [Page.flush, h])

/-- The flushes are in order for a `q` that no flush satisfies. -/
theorem allBefore_map_flush_right (p q : Event → Bool) (pages : List Page)
    (h : ∀ s n, q (Event.FlushICache s n) = false) :
    allBefore p q (pages.map Page.flush) = true :=
  allBefore_of_no_right p q _ (by simp [Page.flush, h])

/-- The prints are in order for a `p` that no print satisfies. -/
theorem allBefore_map_print_left (p q : Event → Bool) (objs : List HeapObject)
    (h : ∀ o, p (Event.PrintBuiltinCode o) = false) :
    allBefore p q (objs.map Event.PrintBuiltinCode) = true :=
  allBefore_of_no_left p q _ (by simp [h])

/-- The prints are in order for a `q` that no print satisfies. -/
theorem allBefore_map_print_right (p q : Event → Bool) (objs : List HeapObject)
    (h : ∀ o, q (Event.PrintBuiltinCode o) = false) :
    allBefore p q (objs.map Event.PrintBuiltinCode) = true :=
  allBefore_of_no_right p q _ (by simp [h])

/-- What is known when lines 19-27 return. -/
theorem reserve_ok {σ : Type} {env : Env σ} {d : Deserializer} {st0 : State σ} {r1 : Run σ}
    (h : DeserializeInto.reserve env d st0 = .ok r1) :
    (env.ReserveSpace (stateBeforeReserve env d st0)).1 = true
      ∧ r1.trace = reserveTrace d.can_rehash true
      ∧ r1.st = stateAtAssertions env d st0 := by
  rw [reserve_eq] at h
  split at h
  · injection h with h
    subst h
    exact ⟨by assumption, rfl, rfl⟩
  · cases h

/-- What is known when lines 19-27 end the run. -/
theorem reserve_error {σ : Type} {env : Env σ} {d : Deserializer} {st0 : State σ}
    {e : Aborted σ} (h : DeserializeInto.reserve env d st0 = .error e) :
    (env.ReserveSpace (stateBeforeReserve env d st0)).1 = false
      ∧ e.1 = Abort.OutOfMemory "StartupDeserializer"
      ∧ e.2.trace = reserveTrace d.can_rehash false
          ++ [Event.FatalProcessOutOfMemory "StartupDeserializer"]
      ∧ e.2.st = stateAtAssertions env d st0 := by
  rw [reserve_eq] at h
  by_cases hg : (env.ReserveSpace (stateBeforeReserve env d st0)).1 = true
  · rw [if_pos hg] at h
    cases h
  · rw [if_neg hg] at h
    injection h with h
    subst h
    exact ⟨Bool.eq_false_iff.2 hg, rfl, rfl, rfl⟩

/-- The trace of any run, returned or not, has one of four shapes. -/
theorem final_trace_cases {σ : Type} (cfg : Config) (env : Env σ) (d : Deserializer)
    (st0 : State σ) :
    ((env.ReserveSpace (stateBeforeReserve env d st0)).1 = false
        ∧ (final (DeserializeInto cfg env d st0)).trace =
          reserveTrace d.can_rehash false ++ [Event.FatalProcessOutOfMemory "StartupDeserializer"])
    ∨ ((env.ReserveSpace (stateBeforeReserve env d st0)).1 = true
        ∧ ((final (DeserializeInto cfg env d st0)).trace = reserveTrace d.can_rehash true
          ∨ (final (DeserializeInto cfg env d st0)).trace = reserveTrace d.can_rehash true ++ blockTrace
          ∨ ∃ pages u sites prints, (final (DeserializeInto cfg env d st0)).trace =
              returnedTrace d.can_rehash pages u sites prints
                (cfg.FLAG_rehash_snapshot && d.can_rehash))) := by
  cases h1 : DeserializeInto.reserve env d st0 with
  | error e =>
    obtain ⟨hg, -, ht, -⟩ := reserve_error h1
    refine Or.inl ⟨hg, ?_⟩
    simp only [DeserializeInto, h1, bind, Except.bind, final, ht]
  | ok r1 =>
    obtain ⟨hg, ht, -⟩ := reserve_ok h1
    refine Or.inr ⟨hg, ?_⟩
    rcases asserts_eq cfg r1 with ⟨c, h2, -⟩ | ⟨h2, -⟩
    · refine Or.inl ?_
      simp only [DeserializeInto, h1, bind, Except.bind, h2, final, ht]
    · by_cases h3 : cfg.DEBUG = true ∧ d.deserializing_user_code = true
      · refine Or.inr (Or.inl ?_)
        simp only [DeserializeInto, h1, bind, Except.bind, h2, roots_eq, h3, and_self, if_true,
          final, beforeFlush_trace, ht]
      · refine Or.inr (Or.inr ?_)
        have hok : DeserializeInto cfg env d st0 = .ok (DeserializeInto.finish cfg env d
            (DeserializeInto.defaults (flushed (beforeFlush env r1)))) := by
          simp only [DeserializeInto, h1, bind, Except.bind, h2, roots_eq, h3, if_false, pure,
            Except.pure]
        rw [hok]
        exact returned_trace hok

/-- Filtering the flushes by a predicate no flush satisfies leaves nothing. -/
theorem filter_map_flush (f : Event → Bool) (pages : List Page)
    (h : ∀ s n, f (Event.FlushICache s n) = false) : (pages.map Page.flush).filter f = [] := by
  rw [List.filter_eq_nil_iff]
  intro a ha
  obtain ⟨p, -, rfl⟩ := List.mem_map.1 ha
  simp [Page.flush, h]

/-- Filtering the prints by a predicate no print satisfies leaves nothing. -/
theorem filter_map_print (f : Event → Bool) (objs : List HeapObject)
    (h : ∀ o, f (Event.PrintBuiltinCode o) = false) :
    (objs.map Event.PrintBuiltinCode).filter f = [] := by
  rw [List.filter_eq_nil_iff]
  intro a ha
  obtain ⟨p, -, rfl⟩ := List.mem_map.1 ha
  simp [h]

/-- Occurrences of an event that is neither a flush nor a print do not depend
on the code pages and the printed objects. -/
theorem count_returnedTrace (e : Event) (hf : e.isFlushICache = false)
    (hp : e.isPrintBuiltinCode = false) (c : Bool) (pages : List Page) (u : Object)
    (sites : Bool) (prints : List HeapObject) (rehash : Bool) :
    (returnedTrace c pages u sites prints rehash).count e
      = (returnedTrace c [] u sites [] rehash).count e := by
  simp only [returnedTrace, finishTrace, List.count_append, count_map_flush e pages hf,
    count_map_print e prints hp, List.map_nil, List.count_nil]

/-- The same for the number of events satisfying a predicate. -/
theorem countP_returnedTrace (f : Event → Bool) (hf : ∀ s n, f (Event.FlushICache s n) = false)
    (hp : ∀ o, f (Event.PrintBuiltinCode o) = false) (c : Bool) (pages : List Page)
    (u : Object) (sites : Bool) (prints : List HeapObject) (rehash : Bool) :
    (returnedTrace c pages u sites prints rehash).countP f
      = (returnedTrace c [] u sites [] rehash).countP f := by
  simp only [List.countP_eq_length_filter, returnedTrace, finishTrace, List.filter_append,
    filter_map_flush f pages hf, filter_map_print f prints hp, List.map_nil, List.filter_nil]

/-- The flush loop does not change the isolate. -/
theorem flush_loop_st {σ : Type} (pages : List Page) (r : Run σ) :
    (pages.foldl (fun acc p => call (Event.FlushICache p.area_start p.area_size) id acc)
      r).st = r.st := by
  induction pages generalizing r with
  | nil => rfl
  | cons p ps ih => rw [List.foldl_cons, ih]; rfl

/-- The flush loop does not change the isolate. -/
theorem flushed_st {σ : Type} (r : Run σ) : (flushed r).st = r.st :=
  flush_loop_st r.st.code_space r

/-- The disassembly loop keeps the allocation-site root when
`PrintBuiltinCode` does. -/
theorem print_loop_sites {σ : Type} (env : Env σ)
    (hk : ∀ obj, keepsAllocationSites (env.PrintBuiltinCode obj))
    (objs : List HeapObject) (r : Run σ) :
    (objs.foldl (fun acc obj =>
        match obj.code with
        | some kind =>
          if kind != Kind.BUILTIN && kind != Kind.BYTECODE_HANDLER then
            call (Event.PrintBuiltinCode obj) (env.PrintBuiltinCode obj) acc
          else acc
        | none => acc) r).st.allocation_sites_list = r.st.allocation_sites_list := by
  induction objs generalizing r with
  | nil => rfl
  | cons o os ih =>
    rw [List.foldl_cons, ih]
    cases hc : o.code with
    | none => rfl
    | some k =>
      by_cases hb : (k != Kind.BUILTIN && k != Kind.BYTECODE_HANDLER) = true
      · simp only [hb, if_true, call_st]
        exact hk o r.st
      · simp only [hb, if_false, Bool.false_eq_true]

/-- `PrintDisassembledCodeObjects` keeps the allocation-site root when
`PrintBuiltinCode` does. -/
theorem PrintDisassembledCodeObjects_sites {σ : Type} (cfg : Config) (env : Env σ)
    (hk : ∀ obj, keepsAllocationSites (env.PrintBuiltinCode obj)) (r : Run σ) :
    (PrintDisassembledCodeObjects cfg env r).st.allocation_sites_list
      = r.st.allocation_sites_list := by
  unfold PrintDisassembledCodeObjects
  split
  · exact print_loop_sites env hk r.st.heap_objects r
  · rfl

/-- Lines 62-77 keep the allocation-site root when their collaborators do. -/
theorem finish_sites {σ : Type} (cfg : Config) (env : Env σ) (d : Deserializer)
    (hk : env.finishKeepsAllocationSites) (r : Run σ) :
    (DeserializeInto.finish cfg env d r).st.allocation_sites_list
      = r.st.allocation_sites_list := by
  obtain ⟨h1, h2, h3, h4, h5, h6, h7⟩ := hk
  unfold DeserializeInto.finish
  cases (cfg.FLAG_rehash_snapshot && d.can_rehash) <;>
    simp only [if_true, if_false, Bool.false_eq_true, call_st, h7 _, h6 _, h5 _,
      PrintDisassembledCodeObjects_sites cfg env h4, id, h3 _, h2 _, h1 _]

/-- The two roots after lines 53-60. -/
theorem defaults_st {σ : Type} (r : Run σ) :
    (DeserializeInto.defaults r).st.native_contexts_list = r.st.undefined_value
      ∧ (DeserializeInto.defaults r).st.allocation_sites_list =
          (if r.st.allocation_sites_list = Smi.kZero then r.st.undefined_value
            else r.st.allocation_sites_list) := by
  by_cases h : r.st.allocation_sites_list = Smi.kZero <;>
    simp [DeserializeInto.defaults, h, State.undefined_value]

/-- The sample collaborators do not write the allocation-site root. -/
theorem sampleEnv_keeps_sites (granted : Bool) : (sampleEnv granted).finishKeepsAllocationSites :=
  ⟨fun _ => rfl, fun _ => rfl, fun _ => rfl, fun _ _ => rfl, fun _ => rfl, fun _ => rfl,
    fun _ => rfl⟩

/-- When root iteration has recorded an allocation site, the root keeps it:
only `native_contexts_list` is written. -/
theorem sites_kept_when_recorded :
    (final (DeserializeInto sampleConfig sitesEnv sampleDeserializer sampleState)).st.allocation_sites_list
        = Object.HeapObject 4100
      ∧ (final (DeserializeInto sampleConfig sitesEnv sampleDeserializer sampleState)).trace.filter
          Event.isRootListWrite = [Event.set_native_contexts_list (Object.HeapObject 8)] :=
  ⟨rfl, rfl⟩

/-! ## The claims -/

/-- C1: when `ReserveSpace` reports failure, `DeserializeInto` ends in
`FatalProcessOutOfMemory` tagged "StartupDeserializer"; the calls made are
exactly the three before the reservation, the reservation and the fatal call,
so no root is visited, no deferred object deserialized, no redirector
restored, no cache flushed, no list root written (the isolate is as
`ReserveSpace` left it), builtins are not marked initialized and nothing is
rehashed. -/
theorem C1_reservation_failure_is_fatal {σ : Type} (cfg : Config) (env : Env σ)
    (d : Deserializer) (st0 : State σ)
    (hfail : (env.ReserveSpace (stateBeforeReserve env d st0)).1 = false) :
    ∃ r, DeserializeInto cfg env d st0 = .error (Abort.OutOfMemory "StartupDeserializer", r)
      ∧ r.trace = [Event.Initialize, Event.SetRehashability d.can_rehash,
          Event.ReadOnlyDeserializeInto, Event.ReserveSpace false,
          Event.FatalProcessOutOfMemory "StartupDeserializer"]
      ∧ r.st = (env.ReserveSpace (stateBeforeReserve env d st0)).2
      ∧ r.trace.all (fun e => !e.isAfterReservation) = true := by
  refine ⟨{ st := (env.ReserveSpace (stateBeforeReserve env d st0)).2,
            trace := [Event.Initialize, Event.SetRehashability d.can_rehash,
              Event.ReadOnlyDeserializeInto, Event.ReserveSpace false,
              Event.FatalProcessOutOfMemory "StartupDeserializer"] }, ?_, rfl, rfl, ?_⟩
  · simp only [DeserializeInto, reserve_eq, hfail, Bool.false_eq_true, if_false, bind,
      Except.bind, reserveTrace]
    rfl
  · simp [Event.isAfterReservation]

/-- Witness of C1: the sample isolate with the reservation refused. -/
theorem C1_witness :
    (sampleEnv false).ReserveSpace
        (stateBeforeReserve (sampleEnv false) sampleDeserializer sampleState) = (false, sampleState)
      ∧ ∃ r, DeserializeInto sampleConfig (sampleEnv false) sampleDeserializer sampleState
          = .error (Abort.OutOfMemory "StartupDeserializer", r)
        ∧ r.trace = [Event.Initialize, Event.SetRehashability true,
            Event.ReadOnlyDeserializeInto, Event.ReserveSpace false,
            Event.FatalProcessOutOfMemory "StartupDeserializer"]
        ∧ r.st = sampleState
        ∧ r.trace.all (fun e => !e.isAfterReservation) = true :=
  ⟨rfl, C1_reservation_failure_is_fatal sampleConfig (sampleEnv false) sampleDeserializer
    sampleState rfl⟩

/-- C2: in every run that returns, the rehash steps that were executed are
exactly `InitializeHashSeed`, `RehashHeap`, `Rehash`, in this order and as
the last calls of the run, when `FLAG_rehash_snapshot` and `can_rehash()`
are both true, and there is none otherwise; without the capability nothing
is rehashed whatever the flag says. -/
theorem C2_rehash_gated_by_flag_and_capability {σ : Type} (cfg : Config) (env : Env σ)
    (d : Deserializer) (st0 : State σ) (r : Run σ)
    (h : DeserializeInto cfg env d st0 = .ok r) :
    r.trace.filter Event.isRehashStep =
        (if cfg.FLAG_rehash_snapshot = true ∧ d.can_rehash = true then
          [Event.InitializeHashSeed, Event.RehashHeap, Event.Rehash] else [])
      ∧ (∃ before, r.trace = before ++ r.trace.filter Event.isRehashStep
          ∧ before.all (fun e => !e.isRehashStep) = true)
      ∧ (d.can_rehash = false → r.trace.all (fun e => !e.isRehashStep) = true)
      ∧ allBefore (· == Event.InitializeHashSeed)
          (fun e => e == Event.RehashHeap || e == Event.Rehash) r.trace = true := by
  obtain ⟨pages, u, sites, prints, ht⟩ := returned_trace h
  have hf : r.trace.filter Event.isRehashStep =
      rehashTrace (cfg.FLAG_rehash_snapshot && d.can_rehash) := by
    rw [ht]
    cases sites <;> cases (cfg.FLAG_rehash_snapshot && d.can_rehash) <;>
      simp [returnedTrace, reserveTrace, blockTrace, defaultsTrace, finishTrace, rehashTrace,
        Event.isRehashStep, filter_map_flush, filter_map_print, List.filter_cons]
  refine ⟨?_, ?_, ?_, ?_⟩
  · rw [hf]
    cases cfg.FLAG_rehash_snapshot <;> cases d.can_rehash <;> simp [rehashTrace]
  · refine ⟨reserveTrace d.can_rehash true ++ blockTrace ++ pages.map Page.flush
      ++ defaultsTrace u sites ++ ([Event.LogCodeObjects, Event.LogCompiledFunctions,
        Event.MarkInitialized, Event.PrintDisassembledCodeObjects]
        ++ prints.map Event.PrintBuiltinCode), ?_, ?_⟩
    · rw [hf, ht]
      simp [returnedTrace, finishTrace]
    · cases sites <;>
        simp [reserveTrace, blockTrace, defaultsTrace, Event.isRehashStep, Page.flush]
  · intro hc
    rw [ht, hc]
    cases sites <;>
      simp [returnedTrace, reserveTrace, blockTrace, defaultsTrace, finishTrace, rehashTrace,
        Event.isRehashStep, Page.flush]
  · rw [ht]
    cases sites <;> cases (cfg.FLAG_rehash_snapshot && d.can_rehash) <;>
      simp [returnedTrace, reserveTrace, blockTrace, defaultsTrace, finishTrace, rehashTrace,
        allBefore_append, allBefore, allBefore_map_flush_left, allBefore_map_print_left,
        Page.flush]

/-- Witness of C2: the sample run, flag and capability both set. -/
theorem C2_witness :
    DeserializeInto sampleConfig (sampleEnv true) sampleDeserializer sampleState = .ok sampleRun
      ∧ sampleRun.trace.filter Event.isRehashStep =
          [Event.InitializeHashSeed, Event.RehashHeap, Event.Rehash] :=
  ⟨rfl, (C2_rehash_gated_by_flag_and_capability sampleConfig (sampleEnv true)
    sampleDeserializer sampleState sampleRun rfl).1⟩

/-- C3: in every run that returns, `IterateSmiRoots`, `IterateStrongRoots`,
`Iterate` and `IterateWeakRoots` are each called exactly once; the Smi roots
are visited before the strong roots, the strong roots before `Iterate`, and
the weak roots after the strong roots and after every other root-visiting
step. -/
theorem C3_root_categories_in_fixed_order {σ : Type} (cfg : Config) (env : Env σ)
    (d : Deserializer) (st0 : State σ) (r : Run σ)
    (h : DeserializeInto cfg env d st0 = .ok r) :
    r.trace.count Event.IterateSmiRoots = 1
      ∧ r.trace.count Event.IterateStrongRoots = 1
      ∧ r.trace.count Event.Iterate = 1
      ∧ r.trace.count Event.IterateWeakRoots = 1
      ∧ allBefore (· == Event.IterateSmiRoots) (· == Event.IterateStrongRoots) r.trace = true
      ∧ allBefore (· == Event.IterateStrongRoots) (· == Event.Iterate) r.trace = true
      ∧ allBefore (· == Event.IterateStrongRoots) (· == Event.IterateWeakRoots) r.trace = true
      ∧ allBefore (fun e => e.isRootVisit && e != Event.IterateWeakRoots)
          (· == Event.IterateWeakRoots) r.trace = true := by
  obtain ⟨pages, u, sites, prints, ht⟩ := returned_trace h
  rw [ht]
  refine ⟨?_, ?_, ?_, ?_, ?_, ?_, ?_, ?_⟩
  · rw [count_returnedTrace Event.IterateSmiRoots rfl rfl]
    cases sites <;> cases (cfg.FLAG_rehash_snapshot && d.can_rehash) <;> rfl
  · rw [count_returnedTrace Event.IterateStrongRoots rfl rfl]
    cases sites <;> cases (cfg.FLAG_rehash_snapshot && d.can_rehash) <;> rfl
  · rw [count_returnedTrace Event.Iterate rfl rfl]
    cases sites <;> cases (cfg.FLAG_rehash_snapshot && d.can_rehash) <;> rfl
  · rw [count_returnedTrace Event.IterateWeakRoots rfl rfl]
    cases sites <;> cases (cfg.FLAG_rehash_snapshot && d.can_rehash) <;> rfl
  all_goals
    cases sites <;> cases (cfg.FLAG_rehash_snapshot && d.can_rehash) <;>
    simp [returnedTrace, reserveTrace, blockTrace, defaultsTrace, finishTrace, rehashTrace,
      allBefore_append, allBefore, allBefore_map_flush_left, allBefore_map_print_left,
      Event.isRootVisit, Page.flush]

/-- Witness of C3: the sample run. -/
theorem C3_witness :
    DeserializeInto sampleConfig (sampleEnv true) sampleDeserializer sampleState = .ok sampleRun
      ∧ sampleRun.trace.count Event.IterateSmiRoots = 1
      ∧ allBefore (fun e => e.isRootVisit && e != Event.IterateWeakRoots)
          (· == Event.IterateWeakRoots) sampleRun.trace = true :=
  have w := C3_root_categories_in_fixed_order sampleConfig (sampleEnv true) sampleDeserializer
    sampleState sampleRun rfl
  ⟨rfl, w.1, w.2.2.2.2.2.2.2⟩

/-- C4 fails as stated: the sample run returns with `IterateSmiRoots`,
`IterateStrongRoots` and `IterateWeakRoots` as its calls number 4, 5 and 7
and `DeserializeDeferredObjects` as call number 8, after all of them. -/
theorem C4_counterexample :
    DeserializeInto sampleConfig (sampleEnv true) sampleDeserializer sampleState = .ok sampleRun
      ∧ sampleRun.trace[4]? = some Event.IterateSmiRoots
      ∧ sampleRun.trace[5]? = some Event.IterateStrongRoots
      ∧ sampleRun.trace[7]? = some Event.IterateWeakRoots
      ∧ sampleRun.trace[8]? = some Event.DeserializeDeferredObjects
      ∧ deferredBeforeRoots sampleRun.trace = false :=
  ⟨rfl, rfl, rfl, rfl, rfl, rfl⟩

/-- C4, amended: in every run that returns, `DeserializeDeferredObjects` is
called exactly once, and after the Smi, strong and weak root visits (and
after `Iterate`): the roots are restored before the deferred objects are
resolved. -/
theorem C4_deferred_after_roots {σ : Type} (cfg : Config) (env : Env σ)
    (d : Deserializer) (st0 : State σ) (r : Run σ)
    (h : DeserializeInto cfg env d st0 = .ok r) :
    r.trace.count Event.DeserializeDeferredObjects = 1
      ∧ r.trace.countP Event.isRootVisit = 4
      ∧ allBefore Event.isRootVisit (· == Event.DeserializeDeferredObjects) r.trace = true := by
  obtain ⟨pages, u, sites, prints, ht⟩ := returned_trace h
  rw [ht]
  refine ⟨?_, ?_, ?_⟩
  · rw [count_returnedTrace Event.DeserializeDeferredObjects rfl rfl]
    cases sites <;> cases (cfg.FLAG_rehash_snapshot && d.can_rehash) <;> rfl
  · rw [countP_returnedTrace Event.isRootVisit (fun _ _ => rfl) (fun _ => rfl)]
    cases sites <;> cases (cfg.FLAG_rehash_snapshot && d.can_rehash) <;> rfl
  · cases sites <;> cases (cfg.FLAG_rehash_snapshot && d.can_rehash) <;>
    simp [returnedTrace, reserveTrace, blockTrace, defaultsTrace, finishTrace, rehashTrace,
      allBefore_append, allBefore, allBefore_map_flush_left, allBefore_map_print_left,
      Event.isRootVisit, Page.flush]

/-- Witness of C4 as amended: the sample run. -/
theorem C4_witness :
    DeserializeInto sampleConfig (sampleEnv true) sampleDeserializer sampleState = .ok sampleRun
      ∧ allBefore Event.isRootVisit (· == Event.DeserializeDeferredObjects) sampleRun.trace
          = true :=
  ⟨rfl, (C4_deferred_after_roots sampleConfig (sampleEnv true) sampleDeserializer
    sampleState sampleRun rfl).2.2⟩

/-- C5 fails as stated: in the sample run the read-only deserializer's
`DeserializeInto` is call number 2 and `ReserveSpace` is call number 3; and
when the reservation is refused the read-only deserializer has run all the
same. -/
theorem C5_counterexample :
    DeserializeInto sampleConfig (sampleEnv true) sampleDeserializer sampleState = .ok sampleRun
      ∧ sampleRun.trace[2]? = some Event.ReadOnlyDeserializeInto
      ∧ sampleRun.trace[3]? = some (Event.ReserveSpace true)
      ∧ reservedBeforeDecoding sampleRun.trace = false
      ∧ reservedBeforeDecoding
          (final (DeserializeInto sampleConfig (sampleEnv false) sampleDeserializer
            sampleState)).trace = false :=
  ⟨rfl, rfl, rfl, rfl, rfl⟩

/-- C5, amended: in every run, returned or not, `ReserveSpace` is called
exactly once, after the read-only deserializer's `DeserializeInto` (which
runs exactly once, before the reservation), and before every root iteration
and before `DeserializeDeferredObjects`; these steps are executed only when
the reservation was granted. -/
theorem C5_reservation_before_roots_and_deferred {σ : Type} (cfg : Config) (env : Env σ)
    (d : Deserializer) (st0 : State σ) :
    (final (DeserializeInto cfg env d st0)).trace.countP Event.isReserveSpace = 1
      ∧ (final (DeserializeInto cfg env d st0)).trace.count Event.ReadOnlyDeserializeInto = 1
      ∧ allBefore (· == Event.ReadOnlyDeserializeInto) Event.isReserveSpace
          (final (DeserializeInto cfg env d st0)).trace = true
      ∧ allBefore Event.isReserveSpace
          (fun e => e.isRootVisit || e == Event.DeserializeDeferredObjects)
          (final (DeserializeInto cfg env d st0)).trace = true
      ∧ ((final (DeserializeInto cfg env d st0)).trace.any
            (fun e => e.isRootVisit || e == Event.DeserializeDeferredObjects) = true →
          (final (DeserializeInto cfg env d st0)).trace.contains (Event.ReserveSpace true)
            = true) := by
  rcases final_trace_cases cfg env d st0 with ⟨-, ht⟩ | ⟨-, ht | ht | ⟨pages, u, sites, prints, ht⟩⟩
  · rw [ht]
    cases d.can_rehash <;> exact ⟨rfl, rfl, rfl, rfl, by decide⟩
  · rw [ht]
    cases d.can_rehash <;> exact ⟨rfl, rfl, rfl, rfl, by decide⟩
  · rw [ht]
    cases d.can_rehash <;> exact ⟨rfl, rfl, rfl, rfl, by decide⟩
  · rw [ht]
    refine ⟨?_, ?_, ?_, ?_, ?_⟩
    · rw [countP_returnedTrace Event.isReserveSpace (fun _ _ => rfl) (fun _ => rfl)]
      cases sites <;> cases (cfg.FLAG_rehash_snapshot && d.can_rehash) <;> rfl
    · rw [count_returnedTrace Event.ReadOnlyDeserializeInto rfl rfl]
      cases sites <;> cases (cfg.FLAG_rehash_snapshot && d.can_rehash) <;> rfl
    · cases sites <;> cases (cfg.FLAG_rehash_snapshot && d.can_rehash) <;>
      simp [returnedTrace, reserveTrace, blockTrace, defaultsTrace, finishTrace, rehashTrace,
        allBefore_append, allBefore, allBefore_map_flush_left, allBefore_map_print_left,
        Event.isReserveSpace, Page.flush]
    · cases sites <;> cases (cfg.FLAG_rehash_snapshot && d.can_rehash) <;>
      simp [returnedTrace, reserveTrace, blockTrace, defaultsTrace, finishTrace, rehashTrace,
        allBefore_append, allBefore, allBefore_map_flush_left, allBefore_map_print_left,
        Event.isReserveSpace, Event.isRootVisit, Page.flush]
    · intro _
      simp [returnedTrace, reserveTrace]

/-- C6: in every run that returns, `DeserializeDeferredObjects` is called
exactly once, after the four root-visiting calls; `RestoreExternalReferenceRedirectors`
is called exactly twice, once on `accessor_infos()` and once on
`call_handler_infos()`, both times after `DeserializeDeferredObjects` and
before the instruction-cache flush. -/
theorem C6_deferred_then_redirectors_then_flush {σ : Type} (cfg : Config) (env : Env σ)
    (d : Deserializer) (st0 : State σ) (r : Run σ)
    (h : DeserializeInto cfg env d st0 = .ok r) :
    r.trace.count Event.DeserializeDeferredObjects = 1
      ∧ allBefore Event.isRootVisit (· == Event.DeserializeDeferredObjects) r.trace = true
      ∧ r.trace.countP Event.isRestoreRedirectors = 2
      ∧ r.trace.count (Event.RestoreExternalReferenceRedirectors InfoList.accessor_infos) = 1
      ∧ r.trace.count (Event.RestoreExternalReferenceRedirectors InfoList.call_handler_infos) = 1
      ∧ allBefore (· == Event.DeserializeDeferredObjects) Event.isRestoreRedirectors r.trace
          = true
      ∧ allBefore Event.isRestoreRedirectors Event.isFlushStep r.trace = true := by
  obtain ⟨pages, u, sites, prints, ht⟩ := returned_trace h
  rw [ht]
  refine ⟨?_, ?_, ?_, ?_, ?_, ?_, ?_⟩
  · rw [count_returnedTrace Event.DeserializeDeferredObjects rfl rfl]
    cases sites <;> cases (cfg.FLAG_rehash_snapshot && d.can_rehash) <;> rfl
  · cases sites <;> cases (cfg.FLAG_rehash_snapshot && d.can_rehash) <;>
    simp [returnedTrace, reserveTrace, blockTrace, defaultsTrace, finishTrace, rehashTrace,
      allBefore_append, allBefore, allBefore_map_flush_left, allBefore_map_print_left,
      Event.isRootVisit, Page.flush]
  · rw [countP_returnedTrace Event.isRestoreRedirectors (fun _ _ => rfl) (fun _ => rfl)]
    cases sites <;> cases (cfg.FLAG_rehash_snapshot && d.can_rehash) <;> rfl
  · rw [count_returnedTrace (Event.RestoreExternalReferenceRedirectors InfoList.accessor_infos) rfl rfl]
    cases sites <;> cases (cfg.FLAG_rehash_snapshot && d.can_rehash) <;> rfl
  · rw [count_returnedTrace (Event.RestoreExternalReferenceRedirectors InfoList.call_handler_infos) rfl rfl]
    cases sites <;> cases (cfg.FLAG_rehash_snapshot && d.can_rehash) <;> rfl
  · cases sites <;> cases (cfg.FLAG_rehash_snapshot && d.can_rehash) <;>
    simp [returnedTrace, reserveTrace, blockTrace, defaultsTrace, finishTrace, rehashTrace,
      allBefore_append, allBefore, allBefore_map_flush_left, allBefore_map_print_left,
      Event.isRestoreRedirectors, Page.flush]
  · cases sites <;> cases (cfg.FLAG_rehash_snapshot && d.can_rehash) <;>
    simp [returnedTrace, reserveTrace, blockTrace, defaultsTrace, finishTrace, rehashTrace,
      allBefore_append, allBefore, allBefore_map_flush_left, allBefore_map_print_left,
      Event.isRestoreRedirectors, Event.isFlushStep, Event.isFlushICache, Page.flush]

/-- Witness of C6: the sample run. -/
theorem C6_witness :
    DeserializeInto sampleConfig (sampleEnv true) sampleDeserializer sampleState = .ok sampleRun
      ∧ sampleRun.trace.countP Event.isRestoreRedirectors = 2
      ∧ allBefore Event.isRestoreRedirectors Event.isFlushStep sampleRun.trace = true :=
  have w := C6_deferred_then_redirectors_then_flush sampleConfig (sampleEnv true)
    sampleDeserializer sampleState sampleRun rfl
  ⟨rfl, w.2.2.1, w.2.2.2.2.2.2⟩

/-- C7: in every run that returns, `FlushICacheForNewIsolate` is called
exactly once, after the root visits, the deferred objects and the
redirector restoration; it and all its `FlushICache` calls precede
`builtins()->MarkInitialized()`, which is called exactly once and precedes
`PrintDisassembledCodeObjects` and everything that prints. -/
theorem C7_flush_before_mark_before_disassembly {σ : Type} (cfg : Config) (env : Env σ)
    (d : Deserializer) (st0 : State σ) (r : Run σ)
    (h : DeserializeInto cfg env d st0 = .ok r) :
    r.trace.count Event.FlushICacheForNewIsolate = 1
      ∧ r.trace.count Event.MarkInitialized = 1
      ∧ r.trace.count Event.PrintDisassembledCodeObjects = 1
      ∧ allBefore Event.isCodeDeserializationStep Event.isFlushStep r.trace = true
      ∧ allBefore Event.isFlushStep (· == Event.MarkInitialized) r.trace = true
      ∧ allBefore (· == Event.MarkInitialized) Event.isDisassemblyStep r.trace = true
      ∧ allBefore Event.isFlushStep Event.isDisassemblyStep r.trace = true := by
  obtain ⟨pages, u, sites, prints, ht⟩ := returned_trace h
  rw [ht]
  refine ⟨?_, ?_, ?_, ?_, ?_, ?_, ?_⟩
  · rw [count_returnedTrace Event.FlushICacheForNewIsolate rfl rfl]
    cases sites <;> cases (cfg.FLAG_rehash_snapshot && d.can_rehash) <;> rfl
  · rw [count_returnedTrace Event.MarkInitialized rfl rfl]
    cases sites <;> cases (cfg.FLAG_rehash_snapshot && d.can_rehash) <;> rfl
  · rw [count_returnedTrace Event.PrintDisassembledCodeObjects rfl rfl]
    cases sites <;> cases (cfg.FLAG_rehash_snapshot && d.can_rehash) <;> rfl
  all_goals
    cases sites <;> cases (cfg.FLAG_rehash_snapshot && d.can_rehash) <;>
    simp [returnedTrace, reserveTrace, blockTrace, defaultsTrace, finishTrace, rehashTrace,
      allBefore_append, allBefore, allBefore_map_flush_left, allBefore_map_print_left,
      allBefore_map_flush_right, allBefore_map_print_right,
      Event.isRestoreRedirectors, Event.isFlushStep, Event.isFlushICache, Page.flush,
      Event.isDisassemblyStep, Event.isCodeDeserializationStep, Event.isRootVisit,
      Event.isPrintBuiltinCode]

/-- Witness of C7: the sample run. -/
theorem C7_witness :
    DeserializeInto sampleConfig (sampleEnv true) sampleDeserializer sampleState = .ok sampleRun
      ∧ allBefore Event.isFlushStep (· == Event.MarkInitialized) sampleRun.trace = true
      ∧ allBefore (· == Event.MarkInitialized) Event.isDisassemblyStep sampleRun.trace = true :=
  have w := C7_flush_before_mark_before_disassembly sampleConfig (sampleEnv true)
    sampleDeserializer sampleState sampleRun rfl
  ⟨rfl, w.2.2.2.2.1, w.2.2.2.2.2.1⟩

/-- C8: when the entry assertion of `FlushICacheForNewIsolate` does not
fire, the function returns having issued, for the pages of the code space
(each with `area_start <= area_end`), exactly one `FlushICache` call per
page, in page order, with start `area_start` and length
`area_end - area_start`; each flushed range ends at `area_end`; for an empty
code space no call is issued. -/
theorem C8_flush_one_call_per_code_page {σ : Type} (cfg : Config) (d : Deserializer)
    (r : Run σ) (hd : cfg.DEBUG = true → d.deserializing_user_code = false)
    (hp : ∀ p ∈ r.st.code_space, p.area_start ≤ p.area_end) :
    ∃ r', FlushICacheForNewIsolate cfg d r = .ok r'
      ∧ r'.trace = r.trace ++ r.st.code_space.map
          (fun p => Event.FlushICache p.area_start (p.area_end.val - p.area_start.val))
      ∧ r'.trace.length = r.trace.length + r.st.code_space.length
      ∧ (∀ p ∈ r.st.code_space, p.area_start.val + p.area_size = p.area_end.val)
      ∧ (r.st.code_space = [] → r'.trace = r.trace)
      ∧ r'.st = r.st := by
  have hsize : ∀ p ∈ r.st.code_space, p.area_size = p.area_end.val - p.area_start.val := by
    intro p hm
    have h1 : p.area_start.val ≤ p.area_end.val := hp p hm
    have h2 : p.area_end.val < 2 ^ 64 := p.area_end.isLt
    unfold Page.area_size
    omega
  have hmap : r.st.code_space.map Page.flush = r.st.code_space.map
      (fun p => Event.FlushICache p.area_start (p.area_end.val - p.area_start.val)) := by
    apply List.map_congr_left
    intro p hm
    simp [Page.flush, hsize p hm]
  have hcond : ¬ (cfg.DEBUG = true ∧ d.deserializing_user_code = true) := by
    rintro ⟨h1, h2⟩
    rw [hd h1] at h2
    cases h2
  refine ⟨flushed r, ?_, ?_, ?_, ?_, ?_, ?_⟩
  · rw [FlushICacheForNewIsolate_eq, if_neg hcond]
  · rw [flushed_trace, hmap]
  · rw [flushed_trace]
    simp
  · intro p hm
    have h1 : p.area_start.val ≤ p.area_end.val := hp p hm
    rw [hsize p hm]
    omega
  · intro hnil
    rw [flushed_trace, hnil]
    simp
  · exact flushed_st r

/-- Witness of C8: the two code pages of the sample isolate. -/
theorem C8_witness :
    (sampleConfig.DEBUG = true → sampleDeserializer.deserializing_user_code = false)
      ∧ (∀ p ∈ sampleState.code_space, p.area_start ≤ p.area_end)
      ∧ ∃ r', FlushICacheForNewIsolate sampleConfig sampleDeserializer
            { st := sampleState, trace := [] } = .ok r'
          ∧ r'.trace = [Event.FlushICache 4096 4096, Event.FlushICache 16384 4096] :=
  ⟨fun _ => rfl, by decide,
    (C8_flush_one_call_per_code_page sampleConfig sampleDeserializer
      { st := sampleState, trace := [] } (fun _ => rfl) (by decide)).imp
      (fun _ h => ⟨h.1, h.2.1⟩)⟩

/-- C10: in a build where a failed assertion ends the run (`DEBUG`), with
the assertions evaluated in the state `ReserveSpace` leaves: if that state
violates at least one of the four bring-up conditions, the run does not
return, nothing of lines 38-77 has been called when it ends (no root visit,
no deferred object, builtins not marked initialized), and when the
reservation was granted it ends at one of the four assertions, in that very
state; if the state satisfies all four and the reservation was granted, the
four assertions pass and the run goes on to `IterateSmiRoots`,
`IterateStrongRoots`, `Iterate` and `IterateWeakRoots`. -/
theorem C10_bring_up_assertions_guard_root_iteration {σ : Type} (cfg : Config) (env : Env σ)
    (d : Deserializer) (st0 : State σ) (hdebug : cfg.DEBUG = true) :
    ((stateAtAssertions env d st0).bringUpOk = false →
        ∃ e, DeserializeInto cfg env d st0 = .error e
          ∧ e.2.trace.all (fun ev => !ev.isAfterReservation) = true
          ∧ e.2.st = stateAtAssertions env d st0
          ∧ ((env.ReserveSpace (stateBeforeReserve env d st0)).1 = true →
              ∃ c, e.1 = Abort.DCheckFailed c ∧ c ≠ Check.not_deserializing_user_code
                ∧ e.2.trace = [Event.Initialize, Event.SetRehashability d.can_rehash,
                    Event.ReadOnlyDeserializeInto, Event.ReserveSpace true]))
      ∧ ((stateAtAssertions env d st0).bringUpOk = true →
          (env.ReserveSpace (stateBeforeReserve env d st0)).1 = true →
          ∃ r1, DeserializeInto.reserve env d st0 = .ok r1
            ∧ r1.st = stateAtAssertions env d st0
            ∧ DeserializeInto.asserts cfg r1 = .ok r1
            ∧ ∃ rest, (final (DeserializeInto cfg env d st0)).trace =
                r1.trace ++ [Event.IterateSmiRoots, Event.IterateStrongRoots, Event.Iterate,
                  Event.IterateWeakRoots] ++ rest) := by
  constructor
  · intro hbad
    cases h1 : DeserializeInto.reserve env d st0 with
    | error e =>
      obtain ⟨hg, -, ht, hst⟩ := reserve_error h1
      refine ⟨e, ?_, ?_, hst, ?_⟩
      · simp only [DeserializeInto, h1, bind, Except.bind]
      · rw [ht]
        simp [reserveTrace, Event.isAfterReservation]
      · intro hg'
        rw [hg] at hg'
        cases hg'
    | ok r1 =>
      obtain ⟨-, ht, hst⟩ := reserve_ok h1
      rcases asserts_eq cfg r1 with ⟨c, h2, hc, -, -⟩ | ⟨-, h2⟩
      · refine ⟨(Abort.DCheckFailed c, r1), ?_, ?_, hst, ?_⟩
        · simp only [DeserializeInto, h1, bind, Except.bind, h2]
        · rw [ht]
          simp [reserveTrace, Event.isAfterReservation]
        · intro _
          exact ⟨c, rfl, hc, ht⟩
      · have := h2 hdebug
        rw [hst, hbad] at this
        cases this
  · intro hgood hg
    cases h1 : DeserializeInto.reserve env d st0 with
    | error e =>
      rw [(reserve_error h1).1] at hg
      cases hg
    | ok r1 =>
      obtain ⟨-, ht, hst⟩ := reserve_ok h1
      rcases asserts_eq cfg r1 with ⟨c, -, -, -, h2⟩ | ⟨h2, -⟩
      · rw [hst, hgood] at h2
        cases h2
      · refine ⟨r1, rfl, hst, h2, ?_⟩
        by_cases h3 : cfg.DEBUG = true ∧ d.deserializing_user_code = true
        · refine ⟨[Event.DeserializeDeferredObjects,
            Event.RestoreExternalReferenceRedirectors InfoList.accessor_infos,
            Event.RestoreExternalReferenceRedirectors InfoList.call_handler_infos,
            Event.FlushICacheForNewIsolate], ?_⟩
          simp only [DeserializeInto, h1, bind, Except.bind, h2, roots_eq, h3, and_self, if_true,
            final, beforeFlush_trace, blockTrace]
          simp
        · have hok : DeserializeInto cfg env d st0 = .ok (DeserializeInto.finish cfg env d
              (DeserializeInto.defaults (flushed (beforeFlush env r1)))) := by
            simp only [DeserializeInto, h1, bind, Except.bind, h2, roots_eq, h3, if_false, pure,
              Except.pure]
          obtain ⟨prints, hp⟩ := finish_trace cfg env d
            (DeserializeInto.defaults (flushed (beforeFlush env r1)))
          rw [hok]
          simp only [final]
          rw [hp, defaults_trace, flushed_trace, beforeFlush_trace]
          refine ⟨[Event.DeserializeDeferredObjects,
            Event.RestoreExternalReferenceRedirectors InfoList.accessor_infos,
            Event.RestoreExternalReferenceRedirectors InfoList.call_handler_infos,
            Event.FlushICacheForNewIsolate]
            ++ (beforeFlush env r1).st.code_space.map Page.flush
            ++ defaultsTrace (flushed (beforeFlush env r1)).st.undefined_value
                (decide ((flushed (beforeFlush env r1)).st.allocation_sites_list = Smi.kZero))
            ++ finishTrace prints (cfg.FLAG_rehash_snapshot && d.can_rehash), ?_⟩
          simp [blockTrace]

/-- Witness of C10: an isolate with an open handle-scope block, and the sample
isolate. -/
theorem C10_witness :
    sampleConfig.DEBUG = true
      ∧ (stateAtAssertions (sampleEnv true) sampleDeserializer busyState).bringUpOk = false
      ∧ (∃ e, DeserializeInto sampleConfig (sampleEnv true) sampleDeserializer busyState
            = .error e
          ∧ e.2.trace.all (fun ev => !ev.isAfterReservation) = true
          ∧ e.2.st = busyState)
      ∧ (stateAtAssertions (sampleEnv true) sampleDeserializer sampleState).bringUpOk = true
      ∧ (∃ r1, DeserializeInto.reserve (sampleEnv true) sampleDeserializer sampleState = .ok r1
          ∧ r1.st = sampleState ∧ DeserializeInto.asserts sampleConfig r1 = .ok r1) :=
  ⟨rfl, rfl,
    ((C10_bring_up_assertions_guard_root_iteration sampleConfig (sampleEnv true)
      sampleDeserializer busyState rfl).1 rfl).imp (fun _ h => ⟨h.1, h.2.1, h.2.2.1⟩),
    rfl,
    ((C10_bring_up_assertions_guard_root_iteration sampleConfig (sampleEnv true)
      sampleDeserializer sampleState rfl).2 rfl rfl).imp (fun _ h => ⟨h.1, h.2.1, h.2.2.1⟩)⟩

end v8.internal
